import Mathlib

/-!
Shallow embedding of `src/app.py` (agentic-orchestration-demo): a Streamlit
demo that runs three fixed multi-agent pipelines (sequential, hierarchical,
swarm) over one chat-completion client, and verification of the spec's
claims about it.

The remote chat-completion endpoint is modelled as an oracle
`create : ChatRequest → Except String ChatResponse` (the argument of
`client.chat.completions.create`; an `Except.error msg` models the Python
call raising an exception with message `msg`).  Every pipeline runs in a
writer/except monad `RunM` that records, in order, the requests issued to
the oracle, so that claims about call inputs and error propagation can be
stated on the recorded trace.
-/

/-- One role-tagged chat message, as built in `call_llm` (src/app.py:48-51). -/
structure ChatMessage where
  role : String
  content : String
deriving DecidableEq, Repr

/-- The argument of one `client.chat.completions.create(...)` call
(src/app.py:45-52): model, temperature and ordered messages. -/
structure ChatRequest where
  model : String
  temperature : ℚ
  messages : List ChatMessage
deriving DecidableEq, Repr

/-- The `message` object inside one completion choice (`choice.message.content`). -/
structure ChatCompletionMessage where
  content : String
deriving DecidableEq, Repr

/-- One completion choice returned by the endpoint. -/
structure ChatChoice where
  message : ChatCompletionMessage
deriving DecidableEq, Repr

/-- The response object of one completion call: a list of choices
(src/app.py:53 consumes `resp.choices[0]`). -/
structure ChatResponse where
  choices : List ChatChoice
deriving DecidableEq, Repr

/-- The completion endpoint as an oracle.  `Except.error msg` models the
Python client raising an exception with message `msg` (network failure,
auth rejection, rate limit, malformed response). -/
abbrev Oracle := ChatRequest → Except String ChatResponse

/-- Errors that can escape one `call_llm` invocation: the transport raising,
or `resp.choices[0]` on an empty choices list (Python `IndexError`). -/
inductive LLMError where
  | transport (msg : String)
  | emptyChoices
deriving DecidableEq, Repr

/-- Writer/except monad for one run: the list of requests issued so far,
and either a value or the first error raised.  After an error no further
requests are issued, as in Python exception propagation. -/
def RunM (α : Type) : Type := List ChatRequest × Except LLMError α

/-- Bind: on success the traces concatenate; an error short-circuits. -/
def RunM.bind {α β : Type} (x : RunM α) (f : α → RunM β) : RunM β :=
  match x with
  | (t, Except.ok a) => (t ++ (f a).1, (f a).2)
  | (t, Except.error e) => (t, Except.error e)

instance : Monad RunM where
  pure a := ([], Except.ok a)
  bind := RunM.bind

/-- The request built by `call_llm` (src/app.py:45-52): a system message
followed by a user message. -/
def mkReq (model : String) (temperature : ℚ) (system_prompt user_prompt : String) :
    ChatRequest :=
  ⟨model, temperature, [⟨"system", system_prompt⟩, ⟨"user", user_prompt⟩]⟩

/-- Python's `str.strip()` (no argument): remove leading and trailing
whitespace.  Defined structurally on the character list so that it
evaluates inside the kernel. -/
def strip (s : String) : String :=
  ⟨((s.data.dropWhile Char.isWhitespace).reverse.dropWhile Char.isWhitespace).reverse⟩

/-- What `call_llm` extracts from the oracle's answer to one request
(src/app.py:53): `resp.choices[0].message.content.strip()`; a raised
transport error propagates, an empty choices list is an `IndexError`. -/
def respText (create : Oracle) (req : ChatRequest) : Except LLMError String :=
  match create req with
  | Except.error msg => Except.error (LLMError.transport msg)
  | Except.ok resp =>
    match resp.choices with
    | [] => Except.error LLMError.emptyChoices
    | c :: _ => Except.ok (strip c.message.content)

/-- Embedding of `call_llm` (src/app.py:44-53): issue one request and return
the stripped text of the first completion choice.  The default temperature
0.6 matches the source's default argument. -/
def call_llm (create : Oracle) (model system_prompt user_prompt : String)
    (temperature : ℚ := 6/10) : RunM String :=
  ([mkReq model temperature system_prompt user_prompt],
   respText create (mkReq model temperature system_prompt user_prompt))

/-- System prompt of sequential step 1 (src/app.py:61).  These twelve role
instructions are verbatim from the source, named per spec §9. -/
def seq_sys1 : String := "FORMAT RULE: Start exactly with \"🧩 FRAME —\". Then give 4–6 crisp bullets."

/-- System prompt of sequential step 2 (src/app.py:68). -/
def seq_sys2 : String := "FORMAT RULE: Start exactly with \"➕ TRADEOFFS —\". Then give \"Pros:\" and \"Cons:\" with 3–5 bullets each. Keep it tight."

/-- System prompt of sequential step 3 (src/app.py:75). -/
def seq_sys3 : String := "FORMAT RULE: Start exactly with \"✅ DECISION —\". Then give a 3–5 line recommendation + 1 line \"When this might NOT apply:\"."

/-- System prompt of hierarchical expert 1 (src/app.py:90). -/
def hier_sys1 : String := "FORMAT RULE: Start exactly with \"🧠 DOMAIN —\". Then give 5–7 bullets: context + key criteria."

/-- System prompt of hierarchical expert 2 (src/app.py:97). -/
def hier_sys2 : String := "FORMAT RULE: Start exactly with \"⚠️ RISKS —\". Then give 5–7 bullets: risks, constraints, edge cases, failure modes."

/-- System prompt of hierarchical expert 3 (src/app.py:104). -/
def hier_sys3 : String := "FORMAT RULE: Start exactly with \"👥 STAKEHOLDERS —\". Then give 5–7 bullets: who is affected + incentives + fairness/ethics + adoption."

/-- System prompt of the hierarchical manager (src/app.py:111). -/
def manager_sys : String := "FORMAT RULE: Start exactly with \"👑 MANAGER —\". Then produce: (1) Final recommendation in 4–6 lines, (2) 2 key takeaways, (3) 1 open question."

/-- System prompt of swarm stance 1 (src/app.py:126). -/
def swarm_sys1 : String := "FORMAT RULE: Start exactly with \"✅ YES —\". Then give 2–4 punchy lines. No bullet points."

/-- System prompt of swarm stance 2 (src/app.py:133). -/
def swarm_sys2 : String := "FORMAT RULE: Start exactly with \"❌ NO —\". Then give 2–4 punchy lines. No bullet points."

/-- System prompt of swarm stance 3 (src/app.py:140). -/
def swarm_sys3 : String := "FORMAT RULE: Start exactly with \"➖ BOTH —\". Then give 2–4 punchy lines. No bullet points."

/-- System prompt of swarm stance 4 (src/app.py:147). -/
def swarm_sys4 : String := "FORMAT RULE: Start exactly with \"⚖️ IT DEPENDS —\". Then give 2–4 punchy lines focused on real-world choice/market."

/-- System prompt of the swarm aggregator (src/app.py:154). -/
def agg_sys : String := "You are the Swarm Aggregator. Summarize each stance in 1 line. Then output a dominant pattern in 2–3 lines. Do NOT force consensus."

/-- The user input of the manager call (src/app.py:112), the f-string
template over the question and the three expert outputs. -/
def manager_input (question expert1 expert2 expert3 : String) : String :=
  "Question:\n" ++ question ++ "\n\nDomain:\n" ++ expert1 ++ "\n\nRisks:\n" ++ expert2 ++ "\n\nStakeholders:\n" ++ expert3

/-- The user input of the aggregator call (src/app.py:155), the f-string
template over the question and the four stance outputs. -/
def agg_input (question a b c d : String) : String :=
  "Question:\n" ++ question ++ "\n\nAgent 1:\n" ++ a ++ "\n\nAgent 2:\n" ++ b ++ "\n\nAgent 3:\n" ++ c ++ "\n\nAgent 4:\n" ++ d

/-- Embedding of `run_sequential` (src/app.py:58-84): three strictly ordered
calls, each consuming the previous call's output as its user input. -/
def run_sequential (create : Oracle) (model question : String) :
    RunM (List (String × String)) := do
  let s1 ← call_llm create model seq_sys1 question (4/10)
  let s2 ← call_llm create model seq_sys2 s1 (4/10)
  let s3 ← call_llm create model seq_sys3 s2 (4/10)
  return [("Step 1 — Frame dilemma", s1),
          ("Step 2 — Pros vs Cons", s2),
          ("Final — Decision", s3)]

/-- Embedding of `run_hierarchical` (src/app.py:87-120): three independent
expert calls on the original question, then a manager call over the
concatenation of the question and the three expert outputs.
Modelled from the spec: the source's return list is cut off mid-token at
`("Manager — Final synthesis", man` (src/app.py:120); the missing tail of
the list is completed per spec §4.3 — "Return order: [expert1, expert2,
expert3, manager] — manager always last" — as the pair
`("Manager — Final synthesis", manager)` closing the list. -/
def run_hierarchical (create : Oracle) (model question : String) :
    RunM (List (String × String)) := do
  let expert1 ← call_llm create model hier_sys1 question (5/10)
  let expert2 ← call_llm create model hier_sys2 question (5/10)
  let expert3 ← call_llm create model hier_sys3 question (5/10)
  let manager ← call_llm create model manager_sys
    (manager_input question expert1 expert2 expert3) (4/10)
  return [("Expert — Domain", expert1),
          ("Expert — Risks & Constraints", expert2),
          ("Expert — Stakeholders & Impact", expert3),
          ("Manager — Final synthesis", manager)]

/-- Embedding of `run_swarm` (src/app.py:123-165): four independent stance
calls on the original question, then an aggregator call over the
concatenation of the question and the four stance outputs. -/
def run_swarm (create : Oracle) (model question : String) :
    RunM (List (String × String)) := do
  let a ← call_llm create model swarm_sys1 question (7/10)
  let b ← call_llm create model swarm_sys2 question (7/10)
  let c ← call_llm create model swarm_sys3 question (7/10)
  let d ← call_llm create model swarm_sys4 question (7/10)
  let agg ← call_llm create model agg_sys (agg_input question a b c d) (4/10)
  return [("Agent 1 — Enthusiast (YES)", a),
          ("Agent 2 — Purist (NO)", b),
          ("Agent 3 — Diplomat (BOTH)", c),
          ("Agent 4 — Pragmatist (DEPENDS)", d),
          ("Swarm — Aggregated view", agg)]

/-- The run driver body (src/app.py:202-207): invoke the three pipelines in
order for one (model, question) pair. -/
def run_all (create : Oracle) (model question : String) :
    RunM (List (String × String) × List (String × String) × List (String × String)) := do
  let seq ← run_sequential create model question
  let hier ← run_hierarchical create model question
  let swm ← run_swarm create model question
  return (seq, hier, swm)

/-- The driver's try/except boundary (src/app.py:202-235): on any raised
error nothing is rendered (`none`); otherwise the three pipeline results
are handed to the display layer. -/
def run_driver (create : Oracle) (model question : String) :
    Option (List (String × String) × List (String × String) × List (String × String)) :=
  match (run_all create model question).2 with
  | Except.ok r => some r
  | Except.error _ => none

/-- The request issued by sequential step 1 (src/app.py:59-64). -/
def seq_req1 (model question : String) : ChatRequest := mkReq model (4/10) seq_sys1 question

/-- The request issued by sequential step 2 (src/app.py:66-71); its user
input is step 1's output. -/
def seq_req2 (model s1 : String) : ChatRequest := mkReq model (4/10) seq_sys2 s1

/-- The request issued by sequential step 3 (src/app.py:73-78); its user
input is step 2's output. -/
def seq_req3 (model s2 : String) : ChatRequest := mkReq model (4/10) seq_sys3 s2

/-- The request issued by hierarchical expert 1 (src/app.py:88-93). -/
def hier_req1 (model question : String) : ChatRequest := mkReq model (5/10) hier_sys1 question

/-- The request issued by hierarchical expert 2 (src/app.py:95-100). -/
def hier_req2 (model question : String) : ChatRequest := mkReq model (5/10) hier_sys2 question

/-- The request issued by hierarchical expert 3 (src/app.py:102-107). -/
def hier_req3 (model question : String) : ChatRequest := mkReq model (5/10) hier_sys3 question

/-- The request issued by the hierarchical manager (src/app.py:109-114). -/
def manager_req (model question expert1 expert2 expert3 : String) : ChatRequest :=
  mkReq model (4/10) manager_sys (manager_input question expert1 expert2 expert3)

/-- The request issued by swarm stance 1 (src/app.py:124-129). -/
def swarm_req1 (model question : String) : ChatRequest := mkReq model (7/10) swarm_sys1 question

/-- The request issued by swarm stance 2 (src/app.py:131-136). -/
def swarm_req2 (model question : String) : ChatRequest := mkReq model (7/10) swarm_sys2 question

/-- The request issued by swarm stance 3 (src/app.py:138-143). -/
def swarm_req3 (model question : String) : ChatRequest := mkReq model (7/10) swarm_sys3 question

/-- The request issued by swarm stance 4 (src/app.py:145-150). -/
def swarm_req4 (model question : String) : ChatRequest := mkReq model (7/10) swarm_sys4 question

/-- The request issued by the swarm aggregator (src/app.py:152-157). -/
def agg_req (model question a b c d : String) : ChatRequest :=
  mkReq model (4/10) agg_sys (agg_input question a b c d)

/-- The user-role input of a request: the content of its first user-tagged
message (every request built by `call_llm` carries exactly one). -/
def user_input (req : ChatRequest) : String :=
  ((req.messages.filterMap fun m => if m.role = "user" then some m.content else none).headD "")

/-- `containsStr big small`: `small` occurs verbatim (contiguously) inside
`big`. -/
def containsStr (big small : String) : Prop :=
  ∃ l r, big.data = l ++ small.data ++ r

/-- The environment `get_api_key` reads (src/app.py:14-19): the value of
`GROQ_API_KEY` in the Streamlit secrets store, if present, and the value
of the `GROQ_API_KEY` environment variable, if set. -/
structure Env where
  secrets : Option String
  getenv : Option String
deriving DecidableEq, Repr

/-- Embedding of `get_api_key` (src/app.py:14-19): the secrets-store value
when the key is present there, otherwise the environment variable. -/
def get_api_key (e : Env) : Option String :=
  match e.secrets with
  | some v => some v
  | none => e.getenv

/-- The `OpenAI(...)` client object constructed at src/app.py:27-30. -/
structure OpenAIClient where
  api_key : String
  base_url : String
deriving DecidableEq, Repr

/-- Outcome of module start-up (src/app.py:21-30): either `st.stop()` was
reached (no client ever constructed), or the client was constructed from
the resolved key. -/
inductive Startup where
  | halted
  | running (client : OpenAIClient)
deriving DecidableEq, Repr

/-- Embedding of src/app.py:21-30: resolve the key; `if not API_KEY`
(i.e. the key is `None` or the empty string) halt via `st.stop()` before
the client is constructed; otherwise construct the client. -/
def startup (e : Env) : Startup :=
  match get_api_key e with
  | none => Startup.halted
  | some k => if k = "" then Startup.halted else
      Startup.running ⟨k, "https://api.groq.com/openai/v1"⟩

/-- All completion requests the process issues for one pressed run: none
when start-up halted (the driver code after `st.stop()` is never reached),
otherwise exactly the requests recorded by `run_all`. -/
def app_requests (e : Env) (create : Oracle) (model question : String) :
    List ChatRequest :=
  match startup e with
  | Startup.halted => []
  | Startup.running _ => (run_all create model question).1

/-- A deterministic oracle answering every request with one choice "ans";
used to witness the claim theorems on concrete inputs. -/
def constOracle : Oracle := fun _ => Except.ok ⟨[⟨⟨"ans"⟩⟩]⟩

/-- An oracle whose very first call raises "boom"; used to witness the
error-propagation claim. -/
def failOracle : Oracle := fun _ => Except.error "boom"

/-- An oracle that answers like `constOracle` on the requests of the
constant-oracle run of model "m" and question "q", and raises everywhere
else; it differs from `constOracle` as a function yet yields the identical
run, witnessing determinism. -/
def tracedOracle : Oracle := fun req =>
  if req ∈ (run_all constOracle "m" "q").1 then constOracle req
  else Except.error "outside the recorded trace"

/-! ## Unfolding lemmas for the run monad and the pipeline call graphs -/

theorem RunM.bind_eq {α β : Type} (x : RunM α) (f : α → RunM β) :
    x >>= f = RunM.bind x f := rfl

theorem RunM.pure_eq {α : Type} (a : α) : (pure a : RunM α) = ([], Except.ok a) := rfl

theorem user_input_mkReq (model : String) (temperature : ℚ) (s u : String) :
    user_input (mkReq model temperature s u) = u := rfl

theorem respText_congr {create create' : Oracle} {req : ChatRequest}
    (h : create' req = create req) : respText create' req = respText create req := by
  simp [respText, h]

/-- Closed-form call graph of the sequential pipeline: the three requests in
order, each error short-circuiting the rest. -/
theorem run_sequential_eq (create : Oracle) (model question : String) :
    run_sequential create model question =
      match respText create (seq_req1 model question) with
      | Except.error e => ([seq_req1 model question], Except.error e)
      | Except.ok s1 =>
        match respText create (seq_req2 model s1) with
        | Except.error e => ([seq_req1 model question, seq_req2 model s1], Except.error e)
        | Except.ok s2 =>
          match respText create (seq_req3 model s2) with
          | Except.error e =>
            ([seq_req1 model question, seq_req2 model s1, seq_req3 model s2], Except.error e)
          | Except.ok s3 =>
            ([seq_req1 model question, seq_req2 model s1, seq_req3 model s2],
             Except.ok [("Step 1 — Frame dilemma", s1), ("Step 2 — Pros vs Cons", s2),
                        ("Final — Decision", s3)]) := by
  unfold run_sequential call_llm seq_req1 seq_req2 seq_req3
  rcases h1 : respText create (mkReq model (4/10) seq_sys1 question) with m1 | s1
  · simp [RunM.bind_eq, RunM.bind, h1]
  · rcases h2 : respText create (mkReq model (4/10) seq_sys2 s1) with m2 | s2
    · simp [RunM.bind_eq, RunM.bind, h1, h2]
    · rcases h3 : respText create (mkReq model (4/10) seq_sys3 s2) with m3 | s3
      · simp [RunM.bind_eq, RunM.bind, RunM.pure_eq, h1, h2, h3]
      · simp [RunM.bind_eq, RunM.bind, RunM.pure_eq, h1, h2, h3]

/-- Closed-form call graph of the hierarchical pipeline: the three expert
requests, then the manager request over their outputs. -/
theorem run_hierarchical_eq (create : Oracle) (model question : String) :
    run_hierarchical create model question =
      match respText create (hier_req1 model question) with
      | Except.error e => ([hier_req1 model question], Except.error e)
      | Except.ok e1 =>
        match respText create (hier_req2 model question) with
        | Except.error e => ([hier_req1 model question, hier_req2 model question], Except.error e)
        | Except.ok e2 =>
          match respText create (hier_req3 model question) with
          | Except.error e =>
            ([hier_req1 model question, hier_req2 model question, hier_req3 model question],
             Except.error e)
          | Except.ok e3 =>
            match respText create (manager_req model question e1 e2 e3) with
            | Except.error e =>
              ([hier_req1 model question, hier_req2 model question, hier_req3 model question,
                manager_req model question e1 e2 e3], Except.error e)
            | Except.ok mg =>
              ([hier_req1 model question, hier_req2 model question, hier_req3 model question,
                manager_req model question e1 e2 e3],
               Except.ok [("Expert — Domain", e1), ("Expert — Risks & Constraints", e2),
                          ("Expert — Stakeholders & Impact", e3),
                          ("Manager — Final synthesis", mg)]) := by
  unfold run_hierarchical call_llm hier_req1 hier_req2 hier_req3 manager_req
  rcases h1 : respText create (mkReq model (5/10) hier_sys1 question) with m1 | e1
  · simp [RunM.bind_eq, RunM.bind, h1]
  · rcases h2 : respText create (mkReq model (5/10) hier_sys2 question) with m2 | e2
    · simp [RunM.bind_eq, RunM.bind, h1, h2]
    · rcases h3 : respText create (mkReq model (5/10) hier_sys3 question) with m3 | e3
      · simp [RunM.bind_eq, RunM.bind, h1, h2, h3]
      · rcases h4 : respText create
            (mkReq model (4/10) manager_sys (manager_input question e1 e2 e3)) with m4 | mg
        · simp [RunM.bind_eq, RunM.bind, RunM.pure_eq, h1, h2, h3, h4]
        · simp [RunM.bind_eq, RunM.bind, RunM.pure_eq, h1, h2, h3, h4]

/-- Closed-form call graph of the swarm pipeline: the four stance requests,
then the aggregator request over their outputs. -/
theorem run_swarm_eq (create : Oracle) (model question : String) :
    run_swarm create model question =
      match respText create (swarm_req1 model question) with
      | Except.error e => ([swarm_req1 model question], Except.error e)
      | Except.ok a =>
        match respText create (swarm_req2 model question) with
        | Except.error e => ([swarm_req1 model question, swarm_req2 model question], Except.error e)
        | Except.ok b =>
          match respText create (swarm_req3 model question) with
          | Except.error e =>
            ([swarm_req1 model question, swarm_req2 model question, swarm_req3 model question],
             Except.error e)
          | Except.ok c =>
            match respText create (swarm_req4 model question) with
            | Except.error e =>
              ([swarm_req1 model question, swarm_req2 model question, swarm_req3 model question,
                swarm_req4 model question], Except.error e)
            | Except.ok d =>
              match respText create (agg_req model question a b c d) with
              | Except.error e =>
                ([swarm_req1 model question, swarm_req2 model question, swarm_req3 model question,
                  swarm_req4 model question, agg_req model question a b c d], Except.error e)
              | Except.ok agg =>
                ([swarm_req1 model question, swarm_req2 model question, swarm_req3 model question,
                  swarm_req4 model question, agg_req model question a b c d],
                 Except.ok [("Agent 1 — Enthusiast (YES)", a), ("Agent 2 — Purist (NO)", b),
                            ("Agent 3 — Diplomat (BOTH)", c), ("Agent 4 — Pragmatist (DEPENDS)", d),
                            ("Swarm — Aggregated view", agg)]) := by
  unfold run_swarm call_llm swarm_req1 swarm_req2 swarm_req3 swarm_req4 agg_req
  rcases h1 : respText create (mkReq model (7/10) swarm_sys1 question) with m1 | a
  · simp [RunM.bind_eq, RunM.bind, h1]
  · rcases h2 : respText create (mkReq model (7/10) swarm_sys2 question) with m2 | b
    · simp [RunM.bind_eq, RunM.bind, h1, h2]
    · rcases h3 : respText create (mkReq model (7/10) swarm_sys3 question) with m3 | c
      · simp [RunM.bind_eq, RunM.bind, h1, h2, h3]
      · rcases h4 : respText create (mkReq model (7/10) swarm_sys4 question) with m4 | d
        · simp [RunM.bind_eq, RunM.bind, h1, h2, h3, h4]
        · rcases h5 : respText create
              (mkReq model (4/10) agg_sys (agg_input question a b c d)) with m5 | agg
          · simp [RunM.bind_eq, RunM.bind, RunM.pure_eq, h1, h2, h3, h4, h5]
          · simp [RunM.bind_eq, RunM.bind, RunM.pure_eq, h1, h2, h3, h4, h5]

/-- Closed-form structure of one driver run: the three pipelines in order,
traces concatenating, the first pipeline error aborting the rest. -/
theorem run_all_eq (create : Oracle) (model question : String) :
    run_all create model question =
      match run_sequential create model question with
      | (t1, Except.error e) => (t1, Except.error e)
      | (t1, Except.ok seq) =>
        match run_hierarchical create model question with
        | (t2, Except.error e) => (t1 ++ t2, Except.error e)
        | (t2, Except.ok hier) =>
          match run_swarm create model question with
          | (t3, Except.error e) => (t1 ++ (t2 ++ t3), Except.error e)
          | (t3, Except.ok swm) => (t1 ++ (t2 ++ t3), Except.ok (seq, hier, swm)) := by
  unfold run_all
  rcases h1 : run_sequential create model question with ⟨t1, m1 | seq⟩
  · simp [RunM.bind_eq, RunM.bind, h1]
  · rcases h2 : run_hierarchical create model question with ⟨t2, m2 | hier⟩
    · simp [RunM.bind_eq, RunM.bind, h1, h2]
    · rcases h3 : run_swarm create model question with ⟨t3, m3 | swm⟩
      · simp [RunM.bind_eq, RunM.bind, h1, h2, h3]
      · simp [RunM.bind_eq, RunM.bind, RunM.pure_eq, h1, h2, h3]

/-! ## Success and failure shapes of each pipeline -/

theorem run_sequential_ok (create : Oracle) (model question : String)
    (res : List (String × String))
    (h : (run_sequential create model question).2 = Except.ok res) :
    ∃ s1 s2 s3,
      respText create (seq_req1 model question) = Except.ok s1 ∧
      respText create (seq_req2 model s1) = Except.ok s2 ∧
      respText create (seq_req3 model s2) = Except.ok s3 ∧
      (run_sequential create model question).1
        = [seq_req1 model question, seq_req2 model s1, seq_req3 model s2] ∧
      res = [("Step 1 — Frame dilemma", s1), ("Step 2 — Pros vs Cons", s2),
             ("Final — Decision", s3)] ∧
      (∀ r ∈ (run_sequential create model question).1, ∃ s, respText create r = Except.ok s) := by
  rw [run_sequential_eq] at h
  rcases h1 : respText create (seq_req1 model question) with m1 | s1
  · simp [h1] at h
  · rcases h2 : respText create (seq_req2 model s1) with m2 | s2
    · simp [h1, h2] at h
    · rcases h3 : respText create (seq_req3 model s2) with m3 | s3
      · simp [h1, h2, h3] at h
      · simp only [h1, h2, h3, Except.ok.injEq] at h
        have htr : (run_sequential create model question).1
            = [seq_req1 model question, seq_req2 model s1, seq_req3 model s2] := by
          rw [run_sequential_eq]
          simp [h1, h2, h3]
        refine ⟨s1, s2, s3, rfl, h2, h3, htr, h.symm, ?_⟩
        intro r hr
        rw [htr] at hr
        simp only [List.mem_cons, List.not_mem_nil, or_false] at hr
        rcases hr with rfl | rfl | rfl
        · exact ⟨s1, h1⟩
        · exact ⟨s2, h2⟩
        · exact ⟨s3, h3⟩

theorem run_sequential_error (create : Oracle) (model question : String) (e : LLMError)
    (h : (run_sequential create model question).2 = Except.error e) :
    ∃ t' last, (run_sequential create model question).1 = t' ++ [last] ∧
      (∀ r ∈ t', ∃ s, respText create r = Except.ok s) ∧
      respText create last = Except.error e := by
  rw [run_sequential_eq] at h
  rcases h1 : respText create (seq_req1 model question) with m1 | s1
  · simp only [h1, Except.error.injEq] at h
    refine ⟨[], seq_req1 model question, ?_, by simp, by rw [h1, h]⟩
    rw [run_sequential_eq]
    simp [h1]
  · rcases h2 : respText create (seq_req2 model s1) with m2 | s2
    · simp only [h1, h2, Except.error.injEq] at h
      refine ⟨[seq_req1 model question], seq_req2 model s1, ?_, ?_, by rw [h2, h]⟩
      · rw [run_sequential_eq]
        simp [h1, h2]
      · intro r hr
        simp only [List.mem_singleton] at hr
        exact ⟨s1, hr ▸ h1⟩
    · rcases h3 : respText create (seq_req3 model s2) with m3 | s3
      · simp only [h1, h2, h3, Except.error.injEq] at h
        refine ⟨[seq_req1 model question, seq_req2 model s1], seq_req3 model s2, ?_, ?_,
          by rw [h3, h]⟩
        · rw [run_sequential_eq]
          simp [h1, h2, h3]
        · intro r hr
          simp only [List.mem_cons, List.not_mem_nil, or_false] at hr
          rcases hr with rfl | rfl
          · exact ⟨s1, h1⟩
          · exact ⟨s2, h2⟩
      · simp [h1, h2, h3] at h

theorem run_hierarchical_ok (create : Oracle) (model question : String)
    (res : List (String × String))
    (h : (run_hierarchical create model question).2 = Except.ok res) :
    ∃ e1 e2 e3 mg,
      respText create (hier_req1 model question) = Except.ok e1 ∧
      respText create (hier_req2 model question) = Except.ok e2 ∧
      respText create (hier_req3 model question) = Except.ok e3 ∧
      respText create (manager_req model question e1 e2 e3) = Except.ok mg ∧
      (run_hierarchical create model question).1
        = [hier_req1 model question, hier_req2 model question, hier_req3 model question,
           manager_req model question e1 e2 e3] ∧
      res = [("Expert — Domain", e1), ("Expert — Risks & Constraints", e2),
             ("Expert — Stakeholders & Impact", e3), ("Manager — Final synthesis", mg)] ∧
      (∀ r ∈ (run_hierarchical create model question).1, ∃ s, respText create r = Except.ok s) := by
  rw [run_hierarchical_eq] at h
  rcases h1 : respText create (hier_req1 model question) with m1 | e1
  · simp [h1] at h
  · rcases h2 : respText create (hier_req2 model question) with m2 | e2
    · simp [h1, h2] at h
    · rcases h3 : respText create (hier_req3 model question) with m3 | e3
      · simp [h1, h2, h3] at h
      · rcases h4 : respText create (manager_req model question e1 e2 e3) with m4 | mg
        · simp [h1, h2, h3, h4] at h
        · simp only [h1, h2, h3, h4, Except.ok.injEq] at h
          have htr : (run_hierarchical create model question).1
              = [hier_req1 model question, hier_req2 model question, hier_req3 model question,
                 manager_req model question e1 e2 e3] := by
            rw [run_hierarchical_eq]
            simp [h1, h2, h3, h4]
          refine ⟨e1, e2, e3, mg, rfl, rfl, rfl, h4, htr, h.symm, ?_⟩
          intro r hr
          rw [htr] at hr
          simp only [List.mem_cons, List.not_mem_nil, or_false] at hr
          rcases hr with rfl | rfl | rfl | rfl
          · exact ⟨e1, h1⟩
          · exact ⟨e2, h2⟩
          · exact ⟨e3, h3⟩
          · exact ⟨mg, h4⟩

theorem run_hierarchical_error (create : Oracle) (model question : String) (e : LLMError)
    (h : (run_hierarchical create model question).2 = Except.error e) :
    ∃ t' last, (run_hierarchical create model question).1 = t' ++ [last] ∧
      (∀ r ∈ t', ∃ s, respText create r = Except.ok s) ∧
      respText create last = Except.error e := by
  rw [run_hierarchical_eq] at h
  rcases h1 : respText create (hier_req1 model question) with m1 | e1
  · simp only [h1, Except.error.injEq] at h
    refine ⟨[], hier_req1 model question, ?_, by simp, by rw [h1, h]⟩
    rw [run_hierarchical_eq]
    simp [h1]
  · rcases h2 : respText create (hier_req2 model question) with m2 | e2
    · simp only [h1, h2, Except.error.injEq] at h
      refine ⟨[hier_req1 model question], hier_req2 model question, ?_, ?_, by rw [h2, h]⟩
      · rw [run_hierarchical_eq]
        simp [h1, h2]
      · intro r hr
        simp only [List.mem_singleton] at hr
        exact ⟨e1, hr ▸ h1⟩
    · rcases h3 : respText create (hier_req3 model question) with m3 | e3
      · simp only [h1, h2, h3, Except.error.injEq] at h
        refine ⟨[hier_req1 model question, hier_req2 model question], hier_req3 model question,
          ?_, ?_, by rw [h3, h]⟩
        · rw [run_hierarchical_eq]
          simp [h1, h2, h3]
        · intro r hr
          simp only [List.mem_cons, List.not_mem_nil, or_false] at hr
          rcases hr with rfl | rfl
          · exact ⟨e1, h1⟩
          · exact ⟨e2, h2⟩
      · rcases h4 : respText create (manager_req model question e1 e2 e3) with m4 | mg
        · simp only [h1, h2, h3, h4, Except.error.injEq] at h
          refine ⟨[hier_req1 model question, hier_req2 model question, hier_req3 model question],
            manager_req model question e1 e2 e3, ?_, ?_, by rw [h4, h]⟩
          · rw [run_hierarchical_eq]
            simp [h1, h2, h3, h4]
          · intro r hr
            simp only [List.mem_cons, List.not_mem_nil, or_false] at hr
            rcases hr with rfl | rfl | rfl
            · exact ⟨e1, h1⟩
            · exact ⟨e2, h2⟩
            · exact ⟨e3, h3⟩
        · simp [h1, h2, h3, h4] at h

theorem run_swarm_ok (create : Oracle) (model question : String)
    (res : List (String × String))
    (h : (run_swarm create model question).2 = Except.ok res) :
    ∃ a b c d agg,
      respText create (swarm_req1 model question) = Except.ok a ∧
      respText create (swarm_req2 model question) = Except.ok b ∧
      respText create (swarm_req3 model question) = Except.ok c ∧
      respText create (swarm_req4 model question) = Except.ok d ∧
      respText create (agg_req model question a b c d) = Except.ok agg ∧
      (run_swarm create model question).1
        = [swarm_req1 model question, swarm_req2 model question, swarm_req3 model question,
           swarm_req4 model question, agg_req model question a b c d] ∧
      res = [("Agent 1 — Enthusiast (YES)", a), ("Agent 2 — Purist (NO)", b),
             ("Agent 3 — Diplomat (BOTH)", c), ("Agent 4 — Pragmatist (DEPENDS)", d),
             ("Swarm — Aggregated view", agg)] ∧
      (∀ r ∈ (run_swarm create model question).1, ∃ s, respText create r = Except.ok s) := by
  rw [run_swarm_eq] at h
  rcases h1 : respText create (swarm_req1 model question) with m1 | a
  · simp [h1] at h
  · rcases h2 : respText create (swarm_req2 model question) with m2 | b
    · simp [h1, h2] at h
    · rcases h3 : respText create (swarm_req3 model question) with m3 | c
      · simp [h1, h2, h3] at h
      · rcases h4 : respText create (swarm_req4 model question) with m4 | d
        · simp [h1, h2, h3, h4] at h
        · rcases h5 : respText create (agg_req model question a b c d) with m5 | agg
          · simp [h1, h2, h3, h4, h5] at h
          · simp only [h1, h2, h3, h4, h5, Except.ok.injEq] at h
            have htr : (run_swarm create model question).1
                = [swarm_req1 model question, swarm_req2 model question, swarm_req3 model question,
                   swarm_req4 model question, agg_req model question a b c d] := by
              rw [run_swarm_eq]
              simp [h1, h2, h3, h4, h5]
            refine ⟨a, b, c, d, agg, rfl, rfl, rfl, rfl, h5, htr, h.symm, ?_⟩
            intro r hr
            rw [htr] at hr
            simp only [List.mem_cons, List.not_mem_nil, or_false] at hr
            rcases hr with rfl | rfl | rfl | rfl | rfl
            · exact ⟨a, h1⟩
            · exact ⟨b, h2⟩
            · exact ⟨c, h3⟩
            · exact ⟨d, h4⟩
            · exact ⟨agg, h5⟩

theorem run_swarm_error (create : Oracle) (model question : String) (e : LLMError)
    (h : (run_swarm create model question).2 = Except.error e) :
    ∃ t' last, (run_swarm create model question).1 = t' ++ [last] ∧
      (∀ r ∈ t', ∃ s, respText create r = Except.ok s) ∧
      respText create last = Except.error e := by
  rw [run_swarm_eq] at h
  rcases h1 : respText create (swarm_req1 model question) with m1 | a
  · simp only [h1, Except.error.injEq] at h
    refine ⟨[], swarm_req1 model question, ?_, by simp, by rw [h1, h]⟩
    rw [run_swarm_eq]
    simp [h1]
  · rcases h2 : respText create (swarm_req2 model question) with m2 | b
    · simp only [h1, h2, Except.error.injEq] at h
      refine ⟨[swarm_req1 model question], swarm_req2 model question, ?_, ?_, by rw [h2, h]⟩
      · rw [run_swarm_eq]
        simp [h1, h2]
      · intro r hr
        simp only [List.mem_singleton] at hr
        exact ⟨a, hr ▸ h1⟩
    · rcases h3 : respText create (swarm_req3 model question) with m3 | c
      · simp only [h1, h2, h3, Except.error.injEq] at h
        refine ⟨[swarm_req1 model question, swarm_req2 model question], swarm_req3 model question,
          ?_, ?_, by rw [h3, h]⟩
        · rw [run_swarm_eq]
          simp [h1, h2, h3]
        · intro r hr
          simp only [List.mem_cons, List.not_mem_nil, or_false] at hr
          rcases hr with rfl | rfl
          · exact ⟨a, h1⟩
          · exact ⟨b, h2⟩
      · rcases h4 : respText create (swarm_req4 model question) with m4 | d
        · simp only [h1, h2, h3, h4, Except.error.injEq] at h
          refine ⟨[swarm_req1 model question, swarm_req2 model question,
            swarm_req3 model question], swarm_req4 model question, ?_, ?_, by rw [h4, h]⟩
          · rw [run_swarm_eq]
            simp [h1, h2, h3, h4]
          · intro r hr
            simp only [List.mem_cons, List.not_mem_nil, or_false] at hr
            rcases hr with rfl | rfl | rfl
            · exact ⟨a, h1⟩
            · exact ⟨b, h2⟩
            · exact ⟨c, h3⟩
        · rcases h5 : respText create (agg_req model question a b c d) with m5 | agg
          · simp only [h1, h2, h3, h4, h5, Except.error.injEq] at h
            refine ⟨[swarm_req1 model question, swarm_req2 model question,
              swarm_req3 model question, swarm_req4 model question],
              agg_req model question a b c d, ?_, ?_, by rw [h5, h]⟩
            · rw [run_swarm_eq]
              simp [h1, h2, h3, h4, h5]
            · intro r hr
              simp only [List.mem_cons, List.not_mem_nil, or_false] at hr
              rcases hr with rfl | rfl | rfl | rfl
              · exact ⟨a, h1⟩
              · exact ⟨b, h2⟩
              · exact ⟨c, h3⟩
              · exact ⟨d, h4⟩
          · simp [h1, h2, h3, h4, h5] at h

theorem run_all_ok (create : Oracle) (model question : String)
    (seq hier swm : List (String × String))
    (h : (run_all create model question).2 = Except.ok (seq, hier, swm)) :
    (run_sequential create model question).2 = Except.ok seq ∧
    (run_hierarchical create model question).2 = Except.ok hier ∧
    (run_swarm create model question).2 = Except.ok swm ∧
    (run_all create model question).1
      = (run_sequential create model question).1 ++
        ((run_hierarchical create model question).1 ++ (run_swarm create model question).1) := by
  rw [run_all_eq] at h
  rcases hs : run_sequential create model question with ⟨t1, ms | s⟩
  · simp [hs] at h
  · rcases hh : run_hierarchical create model question with ⟨t2, mh | hi⟩
    · simp [hs, hh] at h
    · rcases hw : run_swarm create model question with ⟨t3, mw | sw⟩
      · simp [hs, hh, hw] at h
      · simp only [hs, hh, hw] at h
        obtain ⟨rfl, rfl, rfl⟩ : s = seq ∧ hi = hier ∧ sw = swm := by simpa using h
        refine ⟨rfl, rfl, rfl, ?_⟩
        rw [run_all_eq]
        simp [hs, hh, hw]

theorem run_all_error (create : Oracle) (model question : String) (e : LLMError)
    (h : (run_all create model question).2 = Except.error e) :
    ∃ t' last, (run_all create model question).1 = t' ++ [last] ∧
      (∀ r ∈ t', ∃ s, respText create r = Except.ok s) ∧
      respText create last = Except.error e := by
  rw [run_all_eq] at h
  rcases hs : run_sequential create model question with ⟨t1, ms | s⟩
  · simp only [hs] at h
    have hms : ms = e := by simpa using h
    obtain ⟨t', last, htr, hok, hlast⟩ :=
      run_sequential_error create model question e (by rw [hs, hms])
    rw [hs] at htr
    refine ⟨t', last, ?_, hok, hlast⟩
    rw [run_all_eq]
    simp only [hs]
    simpa using htr
  · obtain ⟨s1, s2, s3, _, _, _, _, _, hall1⟩ :=
      run_sequential_ok create model question s (by rw [hs])
    rw [hs] at hall1
    simp only at hall1
    rcases hh : run_hierarchical create model question with ⟨t2, mh | hi⟩
    · simp only [hs, hh] at h
      have hmh : mh = e := by simpa using h
      obtain ⟨t'', last, htr2, hok2, hlast2⟩ :=
        run_hierarchical_error create model question e (by rw [hh, hmh])
      rw [hh] at htr2
      simp only at htr2
      refine ⟨t1 ++ t'', last, ?_, ?_, hlast2⟩
      · rw [run_all_eq]
        simp [hs, hh, htr2]
      · intro r hr
        rcases List.mem_append.mp hr with hr1 | hr2
        · exact hall1 r hr1
        · exact hok2 r hr2
    · obtain ⟨e1, e2, e3, mg, _, _, _, _, _, _, hall2⟩ :=
        run_hierarchical_ok create model question hi (by rw [hh])
      rw [hh] at hall2
      simp only at hall2
      rcases hw : run_swarm create model question with ⟨t3, mw | sw⟩
      · simp only [hs, hh, hw] at h
        have hmw : mw = e := by simpa using h
        obtain ⟨t'', last, htr3, hok3, hlast3⟩ :=
          run_swarm_error create model question e (by rw [hw, hmw])
        rw [hw] at htr3
        simp only at htr3
        refine ⟨t1 ++ (t2 ++ t''), last, ?_, ?_, hlast3⟩
        · rw [run_all_eq]
          simp [hs, hh, hw, htr3]
        · intro r hr
          rcases List.mem_append.mp hr with hr1 | hr2
          · exact hall1 r hr1
          · rcases List.mem_append.mp hr2 with hr2a | hr2b
            · exact hall2 r hr2a
            · exact hok3 r hr2b
      · simp [hs, hh, hw] at h

/-! ## The claims -/

/-- C2: when no completion call fails, one run of the driver yields exactly
3 (label, text) pairs from the sequential pipeline, 4 from the hierarchical
pipeline and 5 from the swarm pipeline — 12 pairs in total. -/
theorem claim_C2 (create : Oracle) (model question : String)
    (seq hier swm : List (String × String))
    (h : run_driver create model question = some (seq, hier, swm)) :
    seq.length = 3 ∧ hier.length = 4 ∧ swm.length = 5 ∧
    seq.length + hier.length + swm.length = 12 := by
  have hok : (run_all create model question).2 = Except.ok (seq, hier, swm) := by
    unfold run_driver at h
    rcases hr : (run_all create model question).2 with m | r
    · rw [hr] at h
      simp at h
    · rw [hr] at h
      simp at h
      rw [h]
  obtain ⟨hseq, hhier, hswm, -⟩ := run_all_ok create model question seq hier swm hok
  obtain ⟨s1, s2, s3, -, -, -, -, hres1, -⟩ := run_sequential_ok create model question seq hseq
  obtain ⟨e1, e2, e3, mg, -, -, -, -, -, hres2, -⟩ :=
    run_hierarchical_ok create model question hier hhier
  obtain ⟨a, b, c, d, agg, -, -, -, -, -, -, hres3, -⟩ :=
    run_swarm_ok create model question swm hswm
  subst hres1 hres2 hres3
  simp

/-- Witness: the driver on the constant oracle succeeds and the three
pipeline results have lengths 3, 4 and 5. -/
theorem claim_C2_witness :
    run_driver constOracle "m" "q"
      = some ([("Step 1 — Frame dilemma", "ans"), ("Step 2 — Pros vs Cons", "ans"),
               ("Final — Decision", "ans")],
              [("Expert — Domain", "ans"), ("Expert — Risks & Constraints", "ans"),
               ("Expert — Stakeholders & Impact", "ans"), ("Manager — Final synthesis", "ans")],
              [("Agent 1 — Enthusiast (YES)", "ans"), ("Agent 2 — Purist (NO)", "ans"),
               ("Agent 3 — Diplomat (BOTH)", "ans"), ("Agent 4 — Pragmatist (DEPENDS)", "ans"),
               ("Swarm — Aggregated view", "ans")]) ∧
    ([("Step 1 — Frame dilemma", "ans"), ("Step 2 — Pros vs Cons", "ans"),
      ("Final — Decision", "ans")] : List (String × String)).length = 3 ∧
    ([("Expert — Domain", "ans"), ("Expert — Risks & Constraints", "ans"),
      ("Expert — Stakeholders & Impact", "ans"),
      ("Manager — Final synthesis", "ans")] : List (String × String)).length = 4 ∧
    ([("Agent 1 — Enthusiast (YES)", "ans"), ("Agent 2 — Purist (NO)", "ans"),
      ("Agent 3 — Diplomat (BOTH)", "ans"), ("Agent 4 — Pragmatist (DEPENDS)", "ans"),
      ("Swarm — Aggregated view", "ans")] : List (String × String)).length = 5 := by
  refine ⟨rfl, ?_⟩
  have := claim_C2 constOracle "m" "q" _ _ _ rfl
  exact ⟨this.1, this.2.1, this.2.2.1⟩

/-- C3: in a successful sequential run the user input of call 1 is the
question itself, the user input of call 2 is exactly call 1's
(whitespace-stripped) output, and the user input of call 3 is exactly
call 2's output. -/
theorem claim_C3 (create : Oracle) (model question : String)
    (res : List (String × String))
    (h : (run_sequential create model question).2 = Except.ok res) :
    ∃ s1 s2,
      (run_sequential create model question).1
        = [seq_req1 model question, seq_req2 model s1, seq_req3 model s2] ∧
      user_input (seq_req1 model question) = question ∧
      respText create (seq_req1 model question) = Except.ok s1 ∧
      user_input (seq_req2 model s1) = s1 ∧
      respText create (seq_req2 model s1) = Except.ok s2 ∧
      user_input (seq_req3 model s2) = s2 := by
  obtain ⟨s1, s2, s3, h1, h2, h3, htr, -, -⟩ := run_sequential_ok create model question res h
  exact ⟨s1, s2, htr, rfl, h1, rfl, h2, rfl⟩

/-- Witness: the sequential chain on the constant oracle; each later call's
user input is the previous call's output. -/
theorem claim_C3_witness :
    (run_sequential constOracle "m" "q").2
      = Except.ok [("Step 1 — Frame dilemma", "ans"), ("Step 2 — Pros vs Cons", "ans"),
                   ("Final — Decision", "ans")] ∧
    ∃ s1 s2,
      (run_sequential constOracle "m" "q").1
        = [seq_req1 "m" "q", seq_req2 "m" s1, seq_req3 "m" s2] ∧
      user_input (seq_req1 "m" "q") = "q" ∧
      respText constOracle (seq_req1 "m" "q") = Except.ok s1 ∧
      user_input (seq_req2 "m" s1) = s1 ∧
      respText constOracle (seq_req2 "m" s1) = Except.ok s2 ∧
      user_input (seq_req3 "m" s2) = s2 :=
  ⟨rfl, claim_C3 constOracle "m" "q" _ rfl⟩

/-- C7: when `GROQ_API_KEY` is absent from both the secrets store and the
process environment, start-up halts before the client is constructed and
the process issues no completion request at all. -/
theorem claim_C7 (e : Env) (create : Oracle) (model question : String)
    (hs : e.secrets = none) (hg : e.getenv = none) :
    get_api_key e = none ∧ startup e = Startup.halted ∧
    app_requests e create model question = [] := by
  have hk : get_api_key e = none := by
    simp [get_api_key, hs, hg]
  have hst : startup e = Startup.halted := by
    simp [startup, hk]
  exact ⟨hk, hst, by simp [app_requests, hst]⟩

/-- Witness: the empty environment halts and issues no request. -/
theorem claim_C7_witness :
    (⟨none, none⟩ : Env).secrets = none ∧ (⟨none, none⟩ : Env).getenv = none ∧
    (get_api_key ⟨none, none⟩ = none ∧ startup ⟨none, none⟩ = Startup.halted ∧
     app_requests ⟨none, none⟩ constOracle "m" "q" = []) :=
  ⟨rfl, rfl, claim_C7 ⟨none, none⟩ constOracle "m" "q" rfl rfl⟩

/-- C8: `call_llm` returns exactly the text of the first completion choice
with surrounding whitespace stripped — independent of any further choices,
with no other post-processing. -/
theorem claim_C8 (create : Oracle) (model system_prompt user_prompt : String)
    (temperature : ℚ) (resp : ChatResponse) (c : ChatChoice) (rest : List ChatChoice)
    (hok : create (mkReq model temperature system_prompt user_prompt) = Except.ok resp)
    (hch : resp.choices = c :: rest) :
    call_llm create model system_prompt user_prompt temperature
      = ([mkReq model temperature system_prompt user_prompt],
         Except.ok (strip c.message.content)) := by
  unfold call_llm respText
  simp only [hok, hch]

/-- Witness: a two-choice response with padded text; the result is the
stripped first choice, the second choice is ignored. -/
theorem claim_C8_witness :
    (fun _ => Except.ok ⟨[⟨⟨"  hello  "⟩⟩, ⟨⟨"other"⟩⟩]⟩ : Oracle)
        (mkReq "m" (6/10) "sys" "usr") = Except.ok ⟨[⟨⟨"  hello  "⟩⟩, ⟨⟨"other"⟩⟩]⟩ ∧
    (⟨[⟨⟨"  hello  "⟩⟩, ⟨⟨"other"⟩⟩]⟩ : ChatResponse).choices
      = ⟨⟨"  hello  "⟩⟩ :: [⟨⟨"other"⟩⟩] ∧
    call_llm (fun _ => Except.ok ⟨[⟨⟨"  hello  "⟩⟩, ⟨⟨"other"⟩⟩]⟩) "m" "sys" "usr" (6/10)
      = ([mkReq "m" (6/10) "sys" "usr"], Except.ok "hello") := by
  refine ⟨rfl, rfl, ?_⟩
  have := claim_C8 (fun _ => Except.ok ⟨[⟨⟨"  hello  "⟩⟩, ⟨⟨"other"⟩⟩]⟩) "m" "sys" "usr"
    (6/10) ⟨[⟨⟨"  hello  "⟩⟩, ⟨⟨"other"⟩⟩]⟩ ⟨⟨"  hello  "⟩⟩ [⟨⟨"other"⟩⟩] rfl rfl
  rw [this]
  rfl

/-- C10: `get_api_key` prefers the secrets-store value over the environment
variable, consults the environment only when the key is absent from the
secrets store, and a resolved credential equal to the empty string halts
start-up just like a missing one. -/
theorem claim_C10 :
    (∀ (e : Env) (v : String), e.secrets = some v → get_api_key e = some v) ∧
    (∀ e : Env, e.secrets = none → get_api_key e = e.getenv) ∧
    (∀ e : Env, get_api_key e = some "" → startup e = Startup.halted) := by
  refine ⟨fun e v hv => ?_, fun e he => ?_, fun e he => ?_⟩
  · simp [get_api_key, hv]
  · simp [get_api_key, he]
  · simp [startup, he]

/-- Witness: secrets value "sk" wins over environment value "ek"; with no
secrets entry the environment value is used; an empty-string credential
halts even though the environment holds a non-empty one. -/
theorem claim_C10_witness :
    ((⟨some "sk", some "ek"⟩ : Env).secrets = some "sk" ∧
      get_api_key ⟨some "sk", some "ek"⟩ = some "sk") ∧
    ((⟨none, some "ek"⟩ : Env).secrets = none ∧
      get_api_key ⟨none, some "ek"⟩ = (⟨none, some "ek"⟩ : Env).getenv) ∧
    (get_api_key ⟨some "", some "ek"⟩ = some "" ∧
      startup ⟨some "", some "ek"⟩ = Startup.halted) :=
  ⟨⟨rfl, claim_C10.1 ⟨some "sk", some "ek"⟩ "sk" rfl⟩,
   ⟨rfl, claim_C10.2.1 ⟨none, some "ek"⟩ rfl⟩,
   ⟨rfl, claim_C10.2.2 ⟨some "", some "ek"⟩ rfl⟩⟩

/-- Substring introduction: exhibiting the characters before and after. -/
theorem containsStr_intro (l r : List Char) (big small : String)
    (h : big.data = l ++ (small.data ++ r)) : containsStr big small :=
  ⟨l, r, by rw [h]; simp [List.append_assoc]⟩

/-- C1: each pipeline's successful result ends with the designated
synthesis/decision/aggregation role's pair — the Decision, Manager and
Aggregator labels respectively, carrying the final reducing call's output,
never an intermediate role's pair — and the non-final elements are, in
order, exactly the outputs of the intermediate agent calls of the recorded
trace. -/
theorem claim_C1 (create : Oracle) (model question : String) :
    (∀ res, (run_sequential create model question).2 = Except.ok res →
      ∃ s1 s2 s3,
        (run_sequential create model question).1
          = [seq_req1 model question, seq_req2 model s1, seq_req3 model s2] ∧
        respText create (seq_req1 model question) = Except.ok s1 ∧
        respText create (seq_req2 model s1) = Except.ok s2 ∧
        respText create (seq_req3 model s2) = Except.ok s3 ∧
        res = [("Step 1 — Frame dilemma", s1), ("Step 2 — Pros vs Cons", s2),
               ("Final — Decision", s3)] ∧
        res.getLast? = some ("Final — Decision", s3)) ∧
    (∀ res, (run_hierarchical create model question).2 = Except.ok res →
      ∃ e1 e2 e3 mg,
        (run_hierarchical create model question).1
          = [hier_req1 model question, hier_req2 model question, hier_req3 model question,
             manager_req model question e1 e2 e3] ∧
        respText create (hier_req1 model question) = Except.ok e1 ∧
        respText create (hier_req2 model question) = Except.ok e2 ∧
        respText create (hier_req3 model question) = Except.ok e3 ∧
        respText create (manager_req model question e1 e2 e3) = Except.ok mg ∧
        res = [("Expert — Domain", e1), ("Expert — Risks & Constraints", e2),
               ("Expert — Stakeholders & Impact", e3), ("Manager — Final synthesis", mg)] ∧
        res.getLast? = some ("Manager — Final synthesis", mg)) ∧
    (∀ res, (run_swarm create model question).2 = Except.ok res →
      ∃ a b c d agg,
        (run_swarm create model question).1
          = [swarm_req1 model question, swarm_req2 model question, swarm_req3 model question,
             swarm_req4 model question, agg_req model question a b c d] ∧
        respText create (swarm_req1 model question) = Except.ok a ∧
        respText create (swarm_req2 model question) = Except.ok b ∧
        respText create (swarm_req3 model question) = Except.ok c ∧
        respText create (swarm_req4 model question) = Except.ok d ∧
        respText create (agg_req model question a b c d) = Except.ok agg ∧
        res = [("Agent 1 — Enthusiast (YES)", a), ("Agent 2 — Purist (NO)", b),
               ("Agent 3 — Diplomat (BOTH)", c), ("Agent 4 — Pragmatist (DEPENDS)", d),
               ("Swarm — Aggregated view", agg)] ∧
        res.getLast? = some ("Swarm — Aggregated view", agg)) := by
  refine ⟨fun res h => ?_, fun res h => ?_, fun res h => ?_⟩
  · obtain ⟨s1, s2, s3, h1, h2, h3, htr, hres, -⟩ :=
      run_sequential_ok create model question res h
    exact ⟨s1, s2, s3, htr, h1, h2, h3, hres, by rw [hres]; rfl⟩
  · obtain ⟨e1, e2, e3, mg, h1, h2, h3, h4, htr, hres, -⟩ :=
      run_hierarchical_ok create model question res h
    exact ⟨e1, e2, e3, mg, htr, h1, h2, h3, h4, hres, by rw [hres]; rfl⟩
  · obtain ⟨a, b, c, d, agg, h1, h2, h3, h4, h5, htr, hres, -⟩ :=
      run_swarm_ok create model question res h
    exact ⟨a, b, c, d, agg, htr, h1, h2, h3, h4, h5, hres, by rw [hres]; rfl⟩

/-- Witness: the three pipelines on the constant oracle; each final element
is the synthesis role's pair. -/
theorem claim_C1_witness :
    ((run_sequential constOracle "m" "q").2
      = Except.ok [("Step 1 — Frame dilemma", "ans"), ("Step 2 — Pros vs Cons", "ans"),
                   ("Final — Decision", "ans")] ∧
     (run_hierarchical constOracle "m" "q").2
      = Except.ok [("Expert — Domain", "ans"), ("Expert — Risks & Constraints", "ans"),
                   ("Expert — Stakeholders & Impact", "ans"),
                   ("Manager — Final synthesis", "ans")] ∧
     (run_swarm constOracle "m" "q").2
      = Except.ok [("Agent 1 — Enthusiast (YES)", "ans"), ("Agent 2 — Purist (NO)", "ans"),
                   ("Agent 3 — Diplomat (BOTH)", "ans"), ("Agent 4 — Pragmatist (DEPENDS)", "ans"),
                   ("Swarm — Aggregated view", "ans")]) ∧
    ([("Step 1 — Frame dilemma", "ans"), ("Step 2 — Pros vs Cons", "ans"),
      ("Final — Decision", "ans")] : List (String × String)).getLast?
        = some ("Final — Decision", "ans") ∧
    ([("Expert — Domain", "ans"), ("Expert — Risks & Constraints", "ans"),
      ("Expert — Stakeholders & Impact", "ans"),
      ("Manager — Final synthesis", "ans")] : List (String × String)).getLast?
        = some ("Manager — Final synthesis", "ans") ∧
    ([("Agent 1 — Enthusiast (YES)", "ans"), ("Agent 2 — Purist (NO)", "ans"),
      ("Agent 3 — Diplomat (BOTH)", "ans"), ("Agent 4 — Pragmatist (DEPENDS)", "ans"),
      ("Swarm — Aggregated view", "ans")] : List (String × String)).getLast?
        = some ("Swarm — Aggregated view", "ans") := by
  refine ⟨⟨rfl, rfl, rfl⟩, ?_, ?_, ?_⟩
  · obtain ⟨s1, s2, s3, -, -, -, -, hres, hlast⟩ := (claim_C1 constOracle "m" "q").1 _ rfl
    have : strip "ans" = s1 ∧ strip "ans" = s2 ∧ strip "ans" = s3 := by
      simpa using hres
    obtain ⟨rfl, rfl, rfl⟩ := this
    exact hlast
  · obtain ⟨e1, e2, e3, mg, -, -, -, -, -, hres, hlast⟩ :=
      (claim_C1 constOracle "m" "q").2.1 _ rfl
    have : strip "ans" = e1 ∧ strip "ans" = e2 ∧ strip "ans" = e3 ∧ strip "ans" = mg := by
      simpa using hres
    obtain ⟨rfl, rfl, rfl, rfl⟩ := this
    exact hlast
  · obtain ⟨a, b, c, d, agg, -, -, -, -, -, -, hres, hlast⟩ :=
      (claim_C1 constOracle "m" "q").2.2 _ rfl
    have : strip "ans" = a ∧ strip "ans" = b ∧ strip "ans" = c ∧ strip "ans" = d ∧
        strip "ans" = agg := by
      simpa using hres
    obtain ⟨rfl, rfl, rfl, rfl, rfl⟩ := this
    exact hlast

/-- C4: in successful hierarchical and swarm runs, each independent call —
the three expert calls and the four stance calls — carries the original
question as its entire user input (its message list is exactly the role
instruction plus the question), never another expert's or stance's
output. -/
theorem claim_C4 (create : Oracle) (model question : String) :
    (∀ res, (run_hierarchical create model question).2 = Except.ok res →
      ∃ e1 e2 e3,
        (run_hierarchical create model question).1
          = [hier_req1 model question, hier_req2 model question, hier_req3 model question,
             manager_req model question e1 e2 e3] ∧
        (hier_req1 model question).messages = [⟨"system", hier_sys1⟩, ⟨"user", question⟩] ∧
        (hier_req2 model question).messages = [⟨"system", hier_sys2⟩, ⟨"user", question⟩] ∧
        (hier_req3 model question).messages = [⟨"system", hier_sys3⟩, ⟨"user", question⟩]) ∧
    (∀ res, (run_swarm create model question).2 = Except.ok res →
      ∃ a b c d,
        (run_swarm create model question).1
          = [swarm_req1 model question, swarm_req2 model question, swarm_req3 model question,
             swarm_req4 model question, agg_req model question a b c d] ∧
        (swarm_req1 model question).messages = [⟨"system", swarm_sys1⟩, ⟨"user", question⟩] ∧
        (swarm_req2 model question).messages = [⟨"system", swarm_sys2⟩, ⟨"user", question⟩] ∧
        (swarm_req3 model question).messages = [⟨"system", swarm_sys3⟩, ⟨"user", question⟩] ∧
        (swarm_req4 model question).messages = [⟨"system", swarm_sys4⟩, ⟨"user", question⟩]) := by
  refine ⟨fun res h => ?_, fun res h => ?_⟩
  · obtain ⟨e1, e2, e3, mg, -, -, -, -, htr, -, -⟩ :=
      run_hierarchical_ok create model question res h
    exact ⟨e1, e2, e3, htr, rfl, rfl, rfl⟩
  · obtain ⟨a, b, c, d, agg, -, -, -, -, -, htr, -, -⟩ :=
      run_swarm_ok create model question res h
    exact ⟨a, b, c, d, htr, rfl, rfl, rfl, rfl⟩

/-- Witness: the independent calls on the constant oracle all carry the
question "q" as their whole user input. -/
theorem claim_C4_witness :
    ((run_hierarchical constOracle "m" "q").2
      = Except.ok [("Expert — Domain", "ans"), ("Expert — Risks & Constraints", "ans"),
                   ("Expert — Stakeholders & Impact", "ans"),
                   ("Manager — Final synthesis", "ans")] ∧
     (run_swarm constOracle "m" "q").2
      = Except.ok [("Agent 1 — Enthusiast (YES)", "ans"), ("Agent 2 — Purist (NO)", "ans"),
                   ("Agent 3 — Diplomat (BOTH)", "ans"), ("Agent 4 — Pragmatist (DEPENDS)", "ans"),
                   ("Swarm — Aggregated view", "ans")]) ∧
    (∃ e1 e2 e3,
      (run_hierarchical constOracle "m" "q").1
        = [hier_req1 "m" "q", hier_req2 "m" "q", hier_req3 "m" "q",
           manager_req "m" "q" e1 e2 e3] ∧
      (hier_req1 "m" "q").messages = [⟨"system", hier_sys1⟩, ⟨"user", "q"⟩] ∧
      (hier_req2 "m" "q").messages = [⟨"system", hier_sys2⟩, ⟨"user", "q"⟩] ∧
      (hier_req3 "m" "q").messages = [⟨"system", hier_sys3⟩, ⟨"user", "q"⟩]) ∧
    (∃ a b c d,
      (run_swarm constOracle "m" "q").1
        = [swarm_req1 "m" "q", swarm_req2 "m" "q", swarm_req3 "m" "q", swarm_req4 "m" "q",
           agg_req "m" "q" a b c d] ∧
      (swarm_req1 "m" "q").messages = [⟨"system", swarm_sys1⟩, ⟨"user", "q"⟩] ∧
      (swarm_req2 "m" "q").messages = [⟨"system", swarm_sys2⟩, ⟨"user", "q"⟩] ∧
      (swarm_req3 "m" "q").messages = [⟨"system", swarm_sys3⟩, ⟨"user", "q"⟩] ∧
      (swarm_req4 "m" "q").messages = [⟨"system", swarm_sys4⟩, ⟨"user", "q"⟩]) :=
  ⟨⟨rfl, rfl⟩, (claim_C4 constOracle "m" "q").1 _ rfl, (claim_C4 constOracle "m" "q").2 _ rfl⟩

/-- C5: in a successful hierarchical run the manager call's user input
contains, verbatim, the original question and each of the three expert
outputs; in a successful swarm run the aggregator call's user input
contains, verbatim, the original question and each of the four stance
outputs. -/
theorem claim_C5 (create : Oracle) (model question : String) :
    (∀ res, (run_hierarchical create model question).2 = Except.ok res →
      ∃ e1 e2 e3 mg,
        res = [("Expert — Domain", e1), ("Expert — Risks & Constraints", e2),
               ("Expert — Stakeholders & Impact", e3), ("Manager — Final synthesis", mg)] ∧
        (run_hierarchical create model question).1.getLast?
          = some (manager_req model question e1 e2 e3) ∧
        containsStr (user_input (manager_req model question e1 e2 e3)) question ∧
        containsStr (user_input (manager_req model question e1 e2 e3)) e1 ∧
        containsStr (user_input (manager_req model question e1 e2 e3)) e2 ∧
        containsStr (user_input (manager_req model question e1 e2 e3)) e3) ∧
    (∀ res, (run_swarm create model question).2 = Except.ok res →
      ∃ a b c d agg,
        res = [("Agent 1 — Enthusiast (YES)", a), ("Agent 2 — Purist (NO)", b),
               ("Agent 3 — Diplomat (BOTH)", c), ("Agent 4 — Pragmatist (DEPENDS)", d),
               ("Swarm — Aggregated view", agg)] ∧
        (run_swarm create model question).1.getLast?
          = some (agg_req model question a b c d) ∧
        containsStr (user_input (agg_req model question a b c d)) question ∧
        containsStr (user_input (agg_req model question a b c d)) a ∧
        containsStr (user_input (agg_req model question a b c d)) b ∧
        containsStr (user_input (agg_req model question a b c d)) c ∧
        containsStr (user_input (agg_req model question a b c d)) d) := by
  refine ⟨fun res h => ?_, fun res h => ?_⟩
  · obtain ⟨e1, e2, e3, mg, -, -, -, -, htr, hres, -⟩ :=
      run_hierarchical_ok create model question res h
    refine ⟨e1, e2, e3, mg, hres, by rw [htr]; rfl, ?_, ?_, ?_, ?_⟩
    · exact containsStr_intro "Question:\n".data
        ("\n\nDomain:\n" ++ e1 ++ "\n\nRisks:\n" ++ e2 ++ "\n\nStakeholders:\n" ++ e3).data
        _ question (by simp [user_input, manager_req, mkReq, manager_input, String.data_append])
    · exact containsStr_intro ("Question:\n" ++ question ++ "\n\nDomain:\n").data
        ("\n\nRisks:\n" ++ e2 ++ "\n\nStakeholders:\n" ++ e3).data
        _ e1 (by simp [user_input, manager_req, mkReq, manager_input, String.data_append])
    · exact containsStr_intro
        ("Question:\n" ++ question ++ "\n\nDomain:\n" ++ e1 ++ "\n\nRisks:\n").data
        ("\n\nStakeholders:\n" ++ e3).data
        _ e2 (by simp [user_input, manager_req, mkReq, manager_input, String.data_append])
    · exact containsStr_intro
        ("Question:\n" ++ question ++ "\n\nDomain:\n" ++ e1 ++ "\n\nRisks:\n" ++ e2
          ++ "\n\nStakeholders:\n").data []
        _ e3 (by simp [user_input, manager_req, mkReq, manager_input, String.data_append])
  · obtain ⟨a, b, c, d, agg, -, -, -, -, -, htr, hres, -⟩ :=
      run_swarm_ok create model question res h
    refine ⟨a, b, c, d, agg, hres, by rw [htr]; rfl, ?_, ?_, ?_, ?_, ?_⟩
    · exact containsStr_intro "Question:\n".data
        ("\n\nAgent 1:\n" ++ a ++ "\n\nAgent 2:\n" ++ b ++ "\n\nAgent 3:\n" ++ c
          ++ "\n\nAgent 4:\n" ++ d).data
        _ question (by simp [user_input, agg_req, mkReq, agg_input, String.data_append])
    · exact containsStr_intro ("Question:\n" ++ question ++ "\n\nAgent 1:\n").data
        ("\n\nAgent 2:\n" ++ b ++ "\n\nAgent 3:\n" ++ c ++ "\n\nAgent 4:\n" ++ d).data
        _ a (by simp [user_input, agg_req, mkReq, agg_input, String.data_append])
    · exact containsStr_intro
        ("Question:\n" ++ question ++ "\n\nAgent 1:\n" ++ a ++ "\n\nAgent 2:\n").data
        ("\n\nAgent 3:\n" ++ c ++ "\n\nAgent 4:\n" ++ d).data
        _ b (by simp [user_input, agg_req, mkReq, agg_input, String.data_append])
    · exact containsStr_intro
        ("Question:\n" ++ question ++ "\n\nAgent 1:\n" ++ a ++ "\n\nAgent 2:\n" ++ b
          ++ "\n\nAgent 3:\n").data
        ("\n\nAgent 4:\n" ++ d).data
        _ c (by simp [user_input, agg_req, mkReq, agg_input, String.data_append])
    · exact containsStr_intro
        ("Question:\n" ++ question ++ "\n\nAgent 1:\n" ++ a ++ "\n\nAgent 2:\n" ++ b
          ++ "\n\nAgent 3:\n" ++ c ++ "\n\nAgent 4:\n").data []
        _ d (by simp [user_input, agg_req, mkReq, agg_input, String.data_append])

/-- Witness: the reducing calls on the constant oracle; the manager and
aggregator inputs contain the question and every intermediate output. -/
theorem claim_C5_witness :
    ((run_hierarchical constOracle "m" "q").2
      = Except.ok [("Expert — Domain", "ans"), ("Expert — Risks & Constraints", "ans"),
                   ("Expert — Stakeholders & Impact", "ans"),
                   ("Manager — Final synthesis", "ans")] ∧
     (run_swarm constOracle "m" "q").2
      = Except.ok [("Agent 1 — Enthusiast (YES)", "ans"), ("Agent 2 — Purist (NO)", "ans"),
                   ("Agent 3 — Diplomat (BOTH)", "ans"), ("Agent 4 — Pragmatist (DEPENDS)", "ans"),
                   ("Swarm — Aggregated view", "ans")]) ∧
    (∃ e1 e2 e3 mg,
      ([("Expert — Domain", "ans"), ("Expert — Risks & Constraints", "ans"),
        ("Expert — Stakeholders & Impact", "ans"), ("Manager — Final synthesis", "ans")]
          : List (String × String))
        = [("Expert — Domain", e1), ("Expert — Risks & Constraints", e2),
           ("Expert — Stakeholders & Impact", e3), ("Manager — Final synthesis", mg)] ∧
      (run_hierarchical constOracle "m" "q").1.getLast?
        = some (manager_req "m" "q" e1 e2 e3) ∧
      containsStr (user_input (manager_req "m" "q" e1 e2 e3)) "q" ∧
      containsStr (user_input (manager_req "m" "q" e1 e2 e3)) e1 ∧
      containsStr (user_input (manager_req "m" "q" e1 e2 e3)) e2 ∧
      containsStr (user_input (manager_req "m" "q" e1 e2 e3)) e3) ∧
    (∃ a b c d agg,
      ([("Agent 1 — Enthusiast (YES)", "ans"), ("Agent 2 — Purist (NO)", "ans"),
        ("Agent 3 — Diplomat (BOTH)", "ans"), ("Agent 4 — Pragmatist (DEPENDS)", "ans"),
        ("Swarm — Aggregated view", "ans")] : List (String × String))
        = [("Agent 1 — Enthusiast (YES)", a), ("Agent 2 — Purist (NO)", b),
           ("Agent 3 — Diplomat (BOTH)", c), ("Agent 4 — Pragmatist (DEPENDS)", d),
           ("Swarm — Aggregated view", agg)] ∧
      (run_swarm constOracle "m" "q").1.getLast?
        = some (agg_req "m" "q" a b c d) ∧
      containsStr (user_input (agg_req "m" "q" a b c d)) "q" ∧
      containsStr (user_input (agg_req "m" "q" a b c d)) a ∧
      containsStr (user_input (agg_req "m" "q" a b c d)) b ∧
      containsStr (user_input (agg_req "m" "q" a b c d)) c ∧
      containsStr (user_input (agg_req "m" "q" a b c d)) d) :=
  ⟨⟨rfl, rfl⟩, (claim_C5 constOracle "m" "q").1 _ rfl, (claim_C5 constOracle "m" "q").2 _ rfl⟩

/-- C6: if the completion client raises on any call the run makes, the run
yields no pipeline result at all — the driver renders nothing — and the
raised error reaches the driver boundary unchanged: the failing call is
the last one issued and its error message is the one the run reports. -/
theorem claim_C6 (create : Oracle) (model question : String)
    (h : ∃ req ∈ (run_all create model question).1, ∃ msg, create req = Except.error msg) :
    run_driver create model question = none ∧
    ∃ req msg, (run_all create model question).1.getLast? = some req ∧
      create req = Except.error msg ∧
      (run_all create model question).2 = Except.error (LLMError.transport msg) := by
  obtain ⟨req, hmem, msg, hbad⟩ := h
  have hbadR : respText create req = Except.error (LLMError.transport msg) := by
    simp [respText, hbad]
  rcases hr : (run_all create model question).2 with m | ⟨seq, hier, swm⟩
  · obtain ⟨t', last, htr, hok, hlast⟩ := run_all_error create model question m (by rw [hr])
    rw [htr] at hmem
    rcases List.mem_append.mp hmem with h1 | h2
    · obtain ⟨s, hs⟩ := hok req h1
      rw [hs] at hbadR
      simp at hbadR
    · have hreq : req = last := by simpa using h2
      subst hreq
      have he : m = LLMError.transport msg := by
        rw [hlast] at hbadR
        simpa using hbadR
      refine ⟨?_, req, msg, ?_, hbad, ?_⟩
      · simp [run_driver, hr]
      · rw [htr]
        simp
      · rw [he]
  · obtain ⟨hseq, hhier, hswm, htr⟩ :=
      run_all_ok create model question seq hier swm (by rw [hr])
    obtain ⟨s1, s2, s3, -, -, -, -, -, hall1⟩ :=
      run_sequential_ok create model question seq hseq
    obtain ⟨e1, e2, e3, mg, -, -, -, -, -, -, hall2⟩ :=
      run_hierarchical_ok create model question hier hhier
    obtain ⟨a, b, c, d, agg, -, -, -, -, -, -, -, hall3⟩ :=
      run_swarm_ok create model question swm hswm
    rw [htr] at hmem
    rcases List.mem_append.mp hmem with h1 | h2
    · obtain ⟨s, hs⟩ := hall1 req h1
      rw [hs] at hbadR
      simp at hbadR
    · rcases List.mem_append.mp h2 with h2a | h2b
      · obtain ⟨s, hs⟩ := hall2 req h2a
        rw [hs] at hbadR
        simp at hbadR
      · obtain ⟨s, hs⟩ := hall3 req h2b
        rw [hs] at hbadR
        simp at hbadR

/-- Witness: on the oracle whose first call raises "boom", the run makes
exactly one call, the driver renders nothing, and the reported error is
that call's error, unchanged. -/
theorem claim_C6_witness :
    (∃ req ∈ (run_all failOracle "m" "q").1, ∃ msg, failOracle req = Except.error msg) ∧
    (run_driver failOracle "m" "q" = none ∧
     ∃ req msg, (run_all failOracle "m" "q").1.getLast? = some req ∧
       failOracle req = Except.error msg ∧
       (run_all failOracle "m" "q").2 = Except.error (LLMError.transport msg)) := by
  have hyp : ∃ req ∈ (run_all failOracle "m" "q").1, ∃ msg, failOracle req = Except.error msg :=
    ⟨seq_req1 "m" "q", show seq_req1 "m" "q" ∈ [seq_req1 "m" "q"] from List.mem_singleton_self _,
     "boom", rfl⟩
  exact ⟨hyp, claim_C6 failOracle "m" "q" hyp⟩

theorem run_sequential_agree (create create' : Oracle) (model question : String)
    (h : ∀ req ∈ (run_sequential create model question).1, create' req = create req) :
    run_sequential create' model question = run_sequential create model question := by
  have hm1 : seq_req1 model question ∈ (run_sequential create model question).1 := by
    rw [run_sequential_eq]
    split
    · simp
    · split
      · simp
      · split <;> simp
  rw [run_sequential_eq create' model question, run_sequential_eq create model question,
      respText_congr (h _ hm1)]
  rcases h1 : respText create (seq_req1 model question) with m | s1
  · simp
  · simp only []
    have hm2 : seq_req2 model s1 ∈ (run_sequential create model question).1 := by
      rw [run_sequential_eq]
      simp only [h1]
      split
      · simp
      · split <;> simp
    rw [respText_congr (h _ hm2)]
    rcases h2 : respText create (seq_req2 model s1) with m | s2
    · simp
    · simp only []
      have hm3 : seq_req3 model s2 ∈ (run_sequential create model question).1 := by
        rw [run_sequential_eq]
        simp only [h1, h2]
        split <;> simp
      rw [respText_congr (h _ hm3)]

theorem run_hierarchical_agree (create create' : Oracle) (model question : String)
    (h : ∀ req ∈ (run_hierarchical create model question).1, create' req = create req) :
    run_hierarchical create' model question = run_hierarchical create model question := by
  have hm1 : hier_req1 model question ∈ (run_hierarchical create model question).1 := by
    rw [run_hierarchical_eq]
    split
    · simp
    · split
      · simp
      · split
        · simp
        · split <;> simp
  rw [run_hierarchical_eq create' model question, run_hierarchical_eq create model question,
      respText_congr (h _ hm1)]
  rcases h1 : respText create (hier_req1 model question) with m | e1
  · simp
  · simp only []
    have hm2 : hier_req2 model question ∈ (run_hierarchical create model question).1 := by
      rw [run_hierarchical_eq]
      simp only [h1]
      split
      · simp
      · split
        · simp
        · split <;> simp
    rw [respText_congr (h _ hm2)]
    rcases h2 : respText create (hier_req2 model question) with m | e2
    · simp
    · simp only []
      have hm3 : hier_req3 model question ∈ (run_hierarchical create model question).1 := by
        rw [run_hierarchical_eq]
        simp only [h1, h2]
        split
        · simp
        · split <;> simp
      rw [respText_congr (h _ hm3)]
      rcases h3 : respText create (hier_req3 model question) with m | e3
      · simp
      · simp only []
        have hm4 : manager_req model question e1 e2 e3
            ∈ (run_hierarchical create model question).1 := by
          rw [run_hierarchical_eq]
          simp only [h1, h2, h3]
          split <;> simp
        rw [respText_congr (h _ hm4)]

theorem run_swarm_agree (create create' : Oracle) (model question : String)
    (h : ∀ req ∈ (run_swarm create model question).1, create' req = create req) :
    run_swarm create' model question = run_swarm create model question := by
  have hm1 : swarm_req1 model question ∈ (run_swarm create model question).1 := by
    rw [run_swarm_eq]
    split
    · simp
    · split
      · simp
      · split
        · simp
        · split
          · simp
          · split <;> simp
  rw [run_swarm_eq create' model question, run_swarm_eq create model question,
      respText_congr (h _ hm1)]
  rcases h1 : respText create (swarm_req1 model question) with m | a
  · simp
  · simp only []
    have hm2 : swarm_req2 model question ∈ (run_swarm create model question).1 := by
      rw [run_swarm_eq]
      simp only [h1]
      split
      · simp
      · split
        · simp
        · split
          · simp
          · split <;> simp
    rw [respText_congr (h _ hm2)]
    rcases h2 : respText create (swarm_req2 model question) with m | b
    · simp
    · simp only []
      have hm3 : swarm_req3 model question ∈ (run_swarm create model question).1 := by
        rw [run_swarm_eq]
        simp only [h1, h2]
        split
        · simp
        · split
          · simp
          · split <;> simp
      rw [respText_congr (h _ hm3)]
      rcases h3 : respText create (swarm_req3 model question) with m | c
      · simp
      · simp only []
        have hm4 : swarm_req4 model question ∈ (run_swarm create model question).1 := by
          rw [run_swarm_eq]
          simp only [h1, h2, h3]
          split
          · simp
          · split <;> simp
        rw [respText_congr (h _ hm4)]
        rcases h4 : respText create (swarm_req4 model question) with m | d
        · simp
        · simp only []
          have hm5 : agg_req model question a b c d ∈ (run_swarm create model question).1 := by
            rw [run_swarm_eq]
            simp only [h1, h2, h3, h4]
            split <;> simp
          rw [respText_congr (h _ hm5)]

/-- C9: no component holds state across invocations — one driver run is
fully determined by the question, the model identifier, the hardcoded
instruction strings and the oracle's responses to the calls the run makes:
any oracle answering those same calls identically yields an identical run
(same requests, same three (label, text) sequences). -/
theorem claim_C9 (create create' : Oracle) (model question : String)
    (h : ∀ req ∈ (run_all create model question).1, create' req = create req) :
    run_all create' model question = run_all create model question := by
  have hsub1 : ∀ req ∈ (run_sequential create model question).1,
      req ∈ (run_all create model question).1 := by
    intro req hreq
    rw [run_all_eq]
    rcases hs' : run_sequential create model question with ⟨t1, m | s⟩
    · rw [hs'] at hreq
      simpa using hreq
    · rw [hs'] at hreq
      rcases run_hierarchical create model question with ⟨t2, m2 | hi⟩
      · simp only [List.mem_append]
        exact Or.inl (by simpa using hreq)
      · rcases run_swarm create model question with ⟨t3, m3 | sw⟩ <;>
        · simp only [List.mem_append]
          exact Or.inl (by simpa using hreq)
  have hseq := run_sequential_agree create create' model question
    (fun req hreq => h req (hsub1 req hreq))
  rw [run_all_eq create' model question, run_all_eq create model question, hseq]
  rcases hs : run_sequential create model question with ⟨t1, m | s⟩
  · simp
  · simp only []
    have hsub2 : ∀ req ∈ (run_hierarchical create model question).1,
        req ∈ (run_all create model question).1 := by
      intro req hreq
      rw [run_all_eq]
      simp only [hs]
      rcases hh' : run_hierarchical create model question with ⟨t2, m2 | hi⟩
      · rw [hh'] at hreq
        simp only [List.mem_append]
        exact Or.inr (by simpa using hreq)
      · rw [hh'] at hreq
        rcases run_swarm create model question with ⟨t3, m3 | sw⟩ <;>
        · simp only [List.mem_append]
          exact Or.inr (Or.inl (by simpa using hreq))
    have hhier := run_hierarchical_agree create create' model question
      (fun req hreq => h req (hsub2 req hreq))
    rw [hhier]
    rcases hh : run_hierarchical create model question with ⟨t2, m2 | hi⟩
    · simp
    · simp only []
      have hsub3 : ∀ req ∈ (run_swarm create model question).1,
          req ∈ (run_all create model question).1 := by
        intro req hreq
        rw [run_all_eq]
        simp only [hs, hh]
        rcases hw' : run_swarm create model question with ⟨t3, m3 | sw⟩ <;>
        · rw [hw'] at hreq
          simp only [List.mem_append]
          exact Or.inr (Or.inr (by simpa using hreq))
      have hswm := run_swarm_agree create create' model question
        (fun req hreq => h req (hsub3 req hreq))
      rw [hswm]

/-- Witness: `tracedOracle` differs from `constOracle` outside the run yet
agrees on the recorded calls, so the two runs coincide. -/
theorem claim_C9_witness :
    (∀ req ∈ (run_all constOracle "m" "q").1, tracedOracle req = constOracle req) ∧
    run_all tracedOracle "m" "q" = run_all constOracle "m" "q" := by
  have hagr : ∀ req ∈ (run_all constOracle "m" "q").1, tracedOracle req = constOracle req :=
    fun req hreq => by simp [tracedOracle, hreq]
  exact ⟨hagr, claim_C9 constOracle tracedOracle "m" "q" hagr⟩
